import Mathlib

/-!
Verification of the salon receptionist core (booking lifecycle, slot
availability, tiered knowledge resolution, help-request escalation).

The definitions below are a shallow embedding of the Python sources:
  - app/agent.py            (Assistant.book_appointment, check_availability, request_help)
  - app/booking_manager.py  (BookingManager.create_booking)
  - app/knowledge_base.py   (KnowledgeManager.search_faq / search_knowledge)
  - app/help_request.py     (HelpRequestManager.create_help_request / resolve_help_request)
  - app/model.py            (BookingContext, SalonUserData)

Python datetimes are embedded as integers (epoch milliseconds or seconds),
monetary amounts and similarity scores as exact rationals, and the Firestore
collections as in-memory lists of typed records.  Firestore writes always
succeed in the model; the exception branch of book_appointment is reachable
through an explicit success flag on the persistence layer.
-/

/-- An appointment document, exactly the dictionary written by
BookingManager.create_booking (booking_manager.py lines 45-58).  The
document id assigned by Firestore is omitted: no query in the sources
filters on it. -/
structure Appointment where
  confirmation_number : String
  customer_name : String
  service : String
  appointment_date : String
  appointment_time : String
  phone_number : String
  price : ℚ
  status : String
  created_at : Nat
  updated_at : Nat
  cancelled : Bool
  cancellation_reason : Option String
deriving DecidableEq, Repr

/-- The booking dictionary built inside create_booking: confirmation number
is the creation timestamp in epoch milliseconds modulo 100000, prefixed with
SA (booking_manager.py lines 42-43); status is the literal confirmed and the
cancellation fields start cleared. -/
def mkAppointment (name service phone date time : String) (price : ℚ) (ms : Nat) :
    Appointment :=
  { confirmation_number := "SA" ++ toString (ms % 100000)
    customer_name := name
    service := service
    appointment_date := date
    appointment_time := time
    phone_number := phone
    price := price
    status := "confirmed"
    created_at := ms
    updated_at := ms
    cancelled := false
    cancellation_reason := none }

/-- The count query of check_availability (agent.py lines 362-368 and
375-380): number of documents whose appointment_date and appointment_time
match.  The query has no filter on the cancelled flag or the status field. -/
def countAll (store : List Appointment) (date time : String) : Nat :=
  (store.filter fun r => r.appointment_date == date && r.appointment_time == time).length

/-- Count of matching documents that are not cancelled.  This is the count
the specification attributes to the slot ledger; the code never computes it
(it is used here only to state claim C3). -/
def countNonCancelled (store : List Appointment) (date time : String) : Nat :=
  (store.filter fun r =>
    r.appointment_date == date && r.appointment_time == time && !r.cancelled).length

/-- The fixed slot list of check_availability (agent.py lines 353-356). -/
def allSlots : List String :=
  ["9:00 AM", "10:00 AM", "11:00 AM", "1:00 PM", "2:00 PM", "3:00 PM", "4:00 PM"]

/-- Result of the book_appointment tool (agent.py lines 298-338): the
unknown-service rejection, the confirmation dictionary, or the
supervisor-fallback message produced by the except branch. -/
inductive BookResult where
  | unknownService (services : List String)
  | confirmed (b : Appointment)
  | supervisorFallback
deriving DecidableEq, Repr

/-- Python str.lower, character by character (String.toLower of the core
library is avoided only because its compiled implementation does not reduce
inside the kernel; the two agree on the inputs at hand). -/
def pyLower (s : String) : String :=
  String.mk (s.toList.map Char.toLower)

/-- The price lookup self.service_prices.get(service.lower())
(agent.py lines 299-300).  Prices are keyed by lower-case service name. -/
def priceOf (prices : List (String × ℚ)) (service : String) : Option ℚ :=
  (prices.find? fun p => p.1 == pyLower service).map (fun p => p.2)

/-- Assistant.book_appointment (agent.py lines 278-338) composed with
BookingManager.create_booking (booking_manager.py lines 25-74).
The body looks up the price of the lower-cased service name and rejects
unknown services listing the available ones; otherwise it builds the booking
document and appends it to the appointments collection.  No other check is
performed before persisting: the session, the slot occupancy, the phone
number and the date are not consulted.  dbok models whether the Firestore
write raises; on failure the except branch returns the fallback message and
nothing is persisted.  The title-casing applied to the service names in the
rejection message is elided (the raw price-list keys are carried). -/
def bookAppointment (prices : List (String × ℚ)) (store : List Appointment)
    (customer_name service phone_number appointment_date appointment_time : String)
    (ms : Nat) (dbok : Bool) : BookResult × List Appointment :=
  match priceOf prices service with
  | none => (BookResult.unknownService (prices.map fun p => p.1), store)
  | some price =>
      if dbok then
        let b := mkAppointment customer_name service phone_number
          appointment_date appointment_time price ms
        (BookResult.confirmed b, store ++ [b])
      else
        (BookResult.supervisorFallback, store)

/-- Whether a booking attempt produced a confirmation. -/
def isBooked : BookResult → Bool
  | BookResult.confirmed _ => true
  | _ => false

/-- Result of the check_availability tool (agent.py lines 340-406):
the outside-business-hours message, the slot-available message, the
fully-booked message carrying the alternative slots (the empty list stands
for the all-slots-fully-booked message), or the day listing produced when no
time is given (the empty list stands for the fully-booked-day message). -/
inductive CheckResult where
  | outsideHours
  | slotAvailable
  | slotFull (alternatives : List String)
  | openList (alternatives : List String)
deriving DecidableEq, Repr

/-- Assistant.check_availability (agent.py lines 340-406).  With a non-empty
time: times outside the fixed slot list are a distinct outcome; a slot with
fewer than two matching documents is available; otherwise every slot of the
fixed list with fewer than two matching documents is collected, in list
order, as the alternatives.  With an empty time the same filter produces the
day listing. -/
def check_availability (store : List Appointment) (date time : String) : CheckResult :=
  if time ≠ "" then
    if time ∈ allSlots then
      if countAll store date time < 2 then
        CheckResult.slotAvailable
      else
        CheckResult.slotFull (allSlots.filter fun s => decide (countAll store date s < 2))
    else
      CheckResult.outsideHours
  else
    CheckResult.openList (allSlots.filter fun s => decide (countAll store date s < 2))

/-- The alternatives carried by a check_availability outcome. -/
def altsOf : CheckResult → List String
  | CheckResult.slotFull l => l
  | CheckResult.openList l => l
  | _ => []

/-- The service price dictionary hard-coded in the repository
(app/livekit_agent/agent.py lines 48-54 and app/main.py lines 27-33); the
production agent loads the same table from a JSON file. -/
def demoPrices : List (String × ℚ) :=
  [("haircut", 40), ("hair coloring", 80), ("highlights", 120),
   ("blow dry", 30), ("hair treatment", 60)]

/-- Modelled from the spec: the phone normalization the specification
describes (strip all non-digit characters, then require exactly ten digits).
No such pipeline exists anywhere in the sources; the definition is used only
to state claim C4 against the code. -/
def stripNonDigits (s : String) : String :=
  String.mk (s.toList.filter Char.isDigit)

/-- Modelled from the spec: day-of-week of a Gregorian date, used only to
state the closed-Thursday claim C5; no weekday computation exists in the
sources.  Zeller's congruence: 0 is Saturday, 5 is Thursday. -/
def zellerDay (y m d : Nat) : Nat :=
  let m' := if m < 3 then m + 12 else m
  let y' := if m < 3 then y - 1 else y
  let K := y' % 100
  let J := y' / 100
  (d + (13 * (m' + 1)) / 5 + K + K / 4 + J / 4 + 5 * J) % 7

/-- Modelled from the spec: whether a Gregorian date is a Thursday, the
salon's designated closed weekday. -/
def isThursday (y m d : Nat) : Bool :=
  zellerDay y m d == 5

/-- English month names, used to render the date strings the tools receive. -/
def monthName : Nat → String
  | 1 => "January"
  | 2 => "February"
  | 3 => "March"
  | 4 => "April"
  | 5 => "May"
  | 6 => "June"
  | 7 => "July"
  | 8 => "August"
  | 9 => "September"
  | 10 => "October"
  | 11 => "November"
  | 12 => "December"
  | _ => ""

/-- The date format the agent instructions use, e.g. March 6, 2025. -/
def renderDate (m d y : Nat) : String :=
  monthName m ++ " " ++ toString d ++ ", " ++ toString y

/-- Python truthiness of an optional string: None and the empty string are
falsy (the all(...) in BookingContext.is_complete relies on this). -/
def pyTruthyStr : Option String → Bool
  | some s => s ≠ ""
  | none => false

/-- BookingContext (model.py lines 40-59): the booking-in-progress fields. -/
structure BookingContext where
  customer_name : Option String := none
  phone_number : Option String := none
  service : Option String := none
  appointment_date : Option String := none
  appointment_time : Option String := none
  price : Option ℚ := none
  confirmed : Bool := false
deriving DecidableEq, Repr

/-- BookingContext.is_complete (model.py lines 51-59): all five required
fields truthy (price and the confirmed flag are not consulted). -/
def BookingContext.is_complete (b : BookingContext) : Bool :=
  pyTruthyStr b.customer_name && pyTruthyStr b.phone_number && pyTruthyStr b.service
    && pyTruthyStr b.appointment_date && pyTruthyStr b.appointment_time

/-- The default BookingContext: every field unset. -/
def emptyBookingContext : BookingContext := {}

/-- SalonUserData (model.py lines 75-105): per-conversation session state.
last_tool_result has type Any in the source; a string payload stands in
for it (no operation inspects its contents). -/
structure SalonUserData where
  current_booking : BookingContext := emptyBookingContext
  conversation_state : String := "greeting"
  previous_queries : List (String × String) := []
  availability_checks : List (String × String) := []
  waiting_for_confirmation : Bool := false
  last_tool_called : Option String := none
  last_tool_result : Option String := none
  validation_errors : List String := []
  retry_count : Nat := 0
deriving DecidableEq, Repr

/-- SalonUserData.reset_booking (model.py lines 91-96, identical in
models/salon_model.py lines 20-25): fresh booking context, confirmation flag
cleared, validation errors emptied, retry counter zeroed; no other field is
touched. -/
def SalonUserData.reset_booking (u : SalonUserData) : SalonUserData :=
  { u with
    current_booking := emptyBookingContext
    waiting_for_confirmation := false
    validation_errors := []
    retry_count := 0 }

/-- A fresh session, as constructed at the start of a conversation. -/
def initialUserData : SalonUserData := {}

/-- A curated FAQ entry: question and answer text (the SALON_FAQ list of
app/information.py, absent from the sources; the specification describes it
as a static ordered list of question-answer pairs). -/
structure FaqEntry where
  question : String
  answer : String
deriving DecidableEq, Repr

/-- Whether the leading characters of a list equal the given pattern. -/
def leadMatch : List Char → List Char → Bool
  | [], _ => true
  | _ :: _, [] => false
  | a :: as, b :: bs => a == b && leadMatch as bs

/-- Python substring containment (the in operator on strings). -/
def strContains (hay needle : String) : Bool :=
  hay.toList.tails.any fun t => leadMatch needle.toList t

/-- Accumulating worker for pyTokens: cur holds the characters of the token
in progress, in reverse. -/
def wsTokens : List Char → List Char → List String
  | [], cur => if cur.isEmpty then [] else [String.mk cur.reverse]
  | c :: rest, cur =>
      if c.isWhitespace then
        if cur.isEmpty then wsTokens rest [] else String.mk cur.reverse :: wsTokens rest []
      else
        wsTokens rest (c :: cur)

/-- Python str.split with no argument: split on whitespace runs, dropping
empty pieces. -/
def pyTokens (s : String) : List String :=
  wsTokens s.toList []

/-- The body of KnowledgeManager.search_faq (knowledge_base.py lines 71-81)
as it executes when awaited: the query is lower-cased; the first cached
entry one of whose lower-cased question tokens occurs as a substring of the
query yields its answer; otherwise the result is None. -/
def searchFaq (cache : List FaqEntry) (query : String) : Option String :=
  let ql := pyLower query
  (cache.find? fun f =>
    (pyTokens (pyLower f.question)).any fun w => strContains ql w).map (fun f => f.answer)

/-- The Python runtime values flowing through request_help: strings, dicts
with string values, None, and coroutine objects (the value produced by
calling an async function without awaiting it). -/
inductive PyVal where
  | pyStr (s : String)
  | pyDict (entries : List (String × String))
  | pyNone
  | pyCoroutine (fn : String)
deriving DecidableEq, Repr

/-- Python truthiness of those values: None is falsy, a string or dict is
truthy when non-empty, and a coroutine object is always truthy. -/
def truthy : PyVal → Bool
  | PyVal.pyStr s => s ≠ ""
  | PyVal.pyDict entries => !entries.isEmpty
  | PyVal.pyNone => false
  | PyVal.pyCoroutine _ => true

/-- Attribute access value.get(key): defined on dicts (missing key gives
None); on any other value the attribute lookup raises AttributeError. -/
def pyGet : PyVal → String → Except String PyVal
  | PyVal.pyDict entries, k =>
      Except.ok (match (entries.find? fun p => p.1 == k).map (fun p => p.2) with
        | some v => PyVal.pyStr v
        | none => PyVal.pyNone)
  | _, _ => Except.error "AttributeError"

/-- Observable outcome of the request_help tool (agent.py lines 409-484):
an FAQ answer returned to the caller, a raw value returned from the
knowledge-base branch, a help request created (with the hold message), or
the outer exception fallback. -/
inductive HelpOutcome where
  | answered (v : PyVal)
  | rawKb (v : PyVal)
  | escalated
  | fallback
deriving DecidableEq, Repr

/-- Assistant.request_help (agent.py lines 409-484), faithful to the Python
dynamic semantics.  Both tier calls are written without await in the source:
search_faq(question_lower) on line 433 and search_knowledge(question_lower)
on line 444 each produce a coroutine object whose body never runs, which is
why the FAQ cache and the knowledge index are not consulted.  A coroutine is
truthy, so the guard on line 434 passes and faq_results.get on line 435
raises AttributeError, caught by the inner except on line 439.  The
knowledge-base guard on line 445 then sees a truthy coroutine and returns it
as the tool result; the help-request creation on lines 451-478 is never
reached. -/
def request_help (_faqCache : List FaqEntry) (_question : String) : HelpOutcome :=
  let faq_results : PyVal := PyVal.pyCoroutine "search_faq"
  let faqStep : Except String (Option PyVal) :=
    if truthy faq_results then
      match pyGet faq_results "answer" with
      | Except.error e => Except.error e
      | Except.ok v => Except.ok (if truthy v then some v else none)
    else
      Except.ok none
  match faqStep with
  | Except.ok (some v) => HelpOutcome.answered v
  | _ =>
      let kb_answer : PyVal := PyVal.pyCoroutine "search_knowledge"
      if truthy kb_answer then
        HelpOutcome.rawKb kb_answer
      else
        HelpOutcome.escalated

/-- Modelled from the spec: a small curated FAQ cache in the shape the
specification gives for the missing app/information.py, used to exhibit a
query the lexical tier would match. -/
def demoFaq : List FaqEntry :=
  [{ question := "Do you accept credit cards?"
     answer := "Yes, we accept all major credit cards." }]

/-- A Qdrant search hit: similarity score and payload dict (scores are
embedded as exact rationals; only their order matters to the code). -/
structure Hit where
  score : ℚ
  payload : Option (List (String × String))
deriving DecidableEq, Repr

/-- Dict lookup payload.get(key) returning the value when present. -/
def alistGet (entries : List (String × String)) (k : String) : Option String :=
  (entries.find? fun p => p.1 == k).map (fun p => p.2)

/-- KnowledgeManager.search_knowledge (knowledge_base.py lines 121-142),
given the hit list returned by the vector store (sorted by the service, best
first).  No hits gives None; a best hit below the threshold gives None;
otherwise the answer field of the best hit's payload is returned (None when
the payload is missing or empty).  The best-is-None test of line 139 cannot
fire on a non-empty list and has no counterpart here. -/
def search_knowledge (hits : List Hit) (threshold : ℚ) : Option String :=
  match hits with
  | [] => none
  | best :: _ =>
      if best.score < threshold then
        none
      else
        match best.payload with
        | none => none
        | some entries => if entries.isEmpty then none else alistGet entries "answer"

/-- The default similarity threshold of search_knowledge
(knowledge_base.py line 121). -/
def defaultThreshold : ℚ := 4 / 5

/-- Help-request lifecycle states (models/help_request.py lines 7-12). -/
inductive HelpStatus where
  | pending
  | inProgress
  | resolved
  | escalatedSt
deriving DecidableEq, Repr

/-- A help-request document, exactly the dictionary written by
HelpRequestManager.create_help_request (help_request.py lines 44-55).
Datetimes are embedded as integer epoch seconds. -/
structure HelpDoc where
  question : String
  answer : Option String
  status : HelpStatus
  room_name : Option String
  created_at : Int
  updated_at : Int
  resolution_notes : Option String
  response_time_seconds : Option Int
  resolved_by : Option String
  resolved_at : Option Int
deriving DecidableEq, Repr

/-- The document create_help_request writes: status pending, the answer and
resolution fields all cleared, created_at and updated_at the current time. -/
def pendingDoc (q : String) (room : Option String) (now : Int) : HelpDoc :=
  { question := q
    answer := none
    status := HelpStatus.pending
    room_name := room
    created_at := now
    updated_at := now
    resolution_notes := none
    response_time_seconds := none
    resolved_by := none
    resolved_at := none }

/-- The help_requests collection: documents keyed by request id. -/
def HelpStore : Type := List (String × HelpDoc)

/-- Fetch of the document with the given id (doc_ref.get). -/
def getDoc : HelpStore → String → Option HelpDoc
  | [], _ => none
  | (k, v) :: rest, id => if k = id then some v else getDoc rest id

/-- Removal of every binding of the given id. -/
def eraseDoc : HelpStore → String → HelpStore
  | [], _ => []
  | (k, v) :: rest, id =>
      if k = id then eraseDoc rest id else (k, v) :: eraseDoc rest id

/-- doc_ref.set / doc_ref.update at a known id: the id now maps to the given
document and every other binding is untouched. -/
def setDoc (s : HelpStore) (id : String) (d : HelpDoc) : HelpStore :=
  (id, d) :: eraseDoc s id

/-- Behaviour of one outbound webhook POST: the channel answers with a
status code, or the call raises (connection error or the 10-second timeout,
help_request.py line 84). -/
inductive NetBehavior where
  | respond (code : Nat)
  | raiseExn (msg : String)
deriving DecidableEq, Repr

/-- The raw HTTP call: a response status or a raised exception. -/
def httpPost : NetBehavior → Except String Nat
  | NetBehavior.respond code => Except.ok code
  | NetBehavior.raiseExn msg => Except.error msg

/-- What the notification step logged; no constructor carries a propagated
exception because every failure path of _notify_supervisor is caught. -/
inductive NotifyLog where
  | notConfigured
  | notified
  | warnedStatus (code : Nat)
  | errorCaught (msg : String)
deriving DecidableEq, Repr

/-- HelpRequestManager._notify_supervisor (help_request.py lines 70-91):
without a configured webhook URL the step only logs; otherwise the POST runs
inside try/except — status 200 is logged as success, any other status is
logged as a warning (line 89), and a raised exception is logged as an error
(lines 90-91).  The function is total: no branch re-raises. -/
def notifySupervisor (url : Option String) (net : NetBehavior) : NotifyLog :=
  match url with
  | none => NotifyLog.notConfigured
  | some _ =>
      match httpPost net with
      | Except.ok 200 => NotifyLog.notified
      | Except.ok code => NotifyLog.warnedStatus code
      | Except.error msg => NotifyLog.errorCaught msg

/-- HelpRequestManager.create_help_request (help_request.py lines 39-68):
generate an id (passed in here), write the pending document, then notify the
supervisor, then return the id.  The store update happens before the
notification and nothing after the write can fail, so the returned store
does not depend on the network behaviour. -/
def createHelpRequest (s : HelpStore) (id q : String) (room : Option String)
    (now : Int) (url : Option String) (net : NetBehavior) :
    HelpStore × String × NotifyLog :=
  let s' := setDoc s id (pendingDoc q room now)
  let log := notifySupervisor url net
  (s', id, log)

/-- The failures resolve_help_request can raise before writing
(help_request.py lines 104-110).  The unreadable-document branch (to_dict
returning an empty value) has no counterpart in a typed store: every stored
document is a HelpDoc. -/
inductive ResolveErr where
  | notFound
deriving DecidableEq, Repr

/-- HelpRequestManager.resolve_help_request (help_request.py lines 93-146):
an unknown id raises not-found and writes nothing; otherwise the response
time is the current time minus the stored created_at, and the document is
updated in place to resolved with the supervisor's answer, notes, response
time and resolution metadata (created_at is not touched).  The subsequent
knowledge-base ingestion and AI callback are best-effort steps that do not
touch the help_requests collection and are not modelled here. -/
def resolveHelpRequest (s : HelpStore) (id answer : String) (notes : Option String)
    (now : Int) : Except ResolveErr (HelpStore × Int) :=
  match getDoc s id with
  | none => Except.error ResolveErr.notFound
  | some d =>
      let rt := now - d.created_at
      Except.ok
        (setDoc s id
          { d with
            status := HelpStatus.resolved
            answer := some answer
            resolution_notes := notes
            updated_at := now
            response_time_seconds := some rt
            resolved_by := some "supervisor"
            resolved_at := some now }, rt)

/-- Stores reachable through the help-request manager: starting empty, each
step is a create or a successful resolve, with wall-clock time never going
backwards between steps. -/
inductive Reach : Int → HelpStore → Prop where
  | init (t : Int) : Reach t []
  | createStep {t : Int} {s : HelpStore} (t' : Int) (id q : String)
      (room : Option String) (url : Option String) (net : NetBehavior) :
      Reach t s → t ≤ t' → Reach t' (createHelpRequest s id q room t' url net).1
  | resolveStep {t : Int} {s s' : HelpStore} {rt : Int} (t' : Int)
      (id answer : String) (notes : Option String) :
      Reach t s → t ≤ t' →
      resolveHelpRequest s id answer notes t' = Except.ok (s', rt) → Reach t' s'

/-- Per-document invariant at clock t: the document was created no later
than t, the answer and response time are set exactly on resolved documents,
and a resolved document's response time is non-negative. -/
def DocInv (t : Int) (d : HelpDoc) : Prop :=
  d.created_at ≤ t
  ∧ ((d.answer.isSome ∧ d.response_time_seconds.isSome) ↔ d.status = HelpStatus.resolved)
  ∧ (d.status = HelpStatus.resolved →
      ∃ rt, d.response_time_seconds = some rt ∧ 0 ≤ rt)

/-- A confirmed booking document at the given slot, for concrete stores. -/
def bookingAt (date time : String) (ms : Nat) : Appointment :=
  mkAppointment "Alice Smith" "haircut" "5550000001" date time 40 ms

/-- The same document after an out-of-band cancellation (the stored schema
carries the cancellation fields, booking_manager.py lines 56-57; no query of
check_availability filters on them). -/
def cancelledBookingAt (date time : String) (ms : Nat) : Appointment :=
  { bookingAt date time ms with
    cancelled := true
    cancellation_reason := some "customer request" }

/-- A concrete date used by the concrete stores below. -/
def exDate : String := "March 10, 2025"

/-- A store whose 2:00 PM slot on exDate holds two confirmed bookings. -/
def fullSlotStore : List Appointment :=
  [bookingAt exDate "2:00 PM" 1, bookingAt exDate "2:00 PM" 2]

/-- fullSlotStore plus a 9:00 AM slot holding one cancelled and one
confirmed booking: one non-cancelled booking, two stored documents. -/
def mixedStore : List Appointment :=
  fullSlotStore ++ [cancelledBookingAt exDate "9:00 AM" 3, bookingAt exDate "9:00 AM" 4]

theorem getDoc_eraseDoc (s : HelpStore) (id id' : String) (h : id ≠ id') :
    getDoc (eraseDoc s id) id' = getDoc s id' := by
  induction s with
  | nil => rfl
  | cons kv rest ih =>
      obtain ⟨k, v⟩ := kv
      by_cases hk : k = id
      · subst hk
        simp [eraseDoc, getDoc, ih, h]
      · simp [eraseDoc, getDoc, hk, ih]

theorem getDoc_setDoc_self (s : HelpStore) (id : String) (d : HelpDoc) :
    getDoc (setDoc s id d) id = some d := by
  simp [setDoc, getDoc]

theorem getDoc_setDoc_ne (s : HelpStore) (id id' : String) (d : HelpDoc)
    (h : id ≠ id') : getDoc (setDoc s id d) id' = getDoc s id' := by
  simp [setDoc, getDoc, h, getDoc_eraseDoc s id id' h]

theorem docInv_mono {t t' : Int} {d : HelpDoc} (h : DocInv t d) (hle : t ≤ t') :
    DocInv t' d :=
  ⟨le_trans h.1 hle, h.2.1, h.2.2⟩

theorem reach_docInv {t : Int} {s : HelpStore} (h : Reach t s) :
    ∀ id d, getDoc s id = some d → DocInv t d := by
  induction h with
  | init t =>
      intro id d hd
      simp [getDoc] at hd
  | createStep t' id q room url net hr hle ih =>
      intro id' d hd
      rw [show (createHelpRequest _ id q room t' url net).1
            = setDoc _ id (pendingDoc q room t') from rfl] at hd
      by_cases hid : id = id'
      · subst hid
        rw [getDoc_setDoc_self] at hd
        cases hd
        refine ⟨le_refl t', ?_, ?_⟩
        · simp [pendingDoc]
        · simp [pendingDoc]
      · rw [getDoc_setDoc_ne _ _ _ _ hid] at hd
        exact docInv_mono (ih id' d hd) hle
  | resolveStep t' id answer notes hr hle hres ih =>
      intro id' d hd
      rcases hgd : getDoc _ id with _ | d0
      · rw [resolveHelpRequest, hgd] at hres
        cases hres
      · rw [resolveHelpRequest, hgd] at hres
        simp only [Except.ok.injEq, Prod.mk.injEq] at hres
        obtain ⟨hs', hrt⟩ := hres
        subst hs'
        by_cases hid : id = id'
        · subst hid
          rw [getDoc_setDoc_self] at hd
          cases hd
          have h0 : d0.created_at ≤ t' := le_trans (ih id d0 hgd).1 hle
          refine ⟨h0, by simp, ?_⟩
          intro _
          exact ⟨t' - d0.created_at, rfl, by omega⟩
        · rw [getDoc_setDoc_ne _ _ _ _ hid] at hd
          exact docInv_mono (ih id' d hd) hle

theorem countAll_append (s₁ s₂ : List Appointment) (date time : String) :
    countAll (s₁ ++ s₂) date time = countAll s₁ date time + countAll s₂ date time := by
  simp [countAll, List.filter_append]

theorem countAll_mk_single (name service phone date time : String) (price : ℚ)
    (ms : Nat) :
    countAll [mkAppointment name service phone date time price ms] date time = 1 := by
  simp [countAll, mkAppointment]

/-- C1 (counterexample): the claim says the booking operation succeeds only
when is_complete() holds and waiting_for_confirmation is true.  In the code
book_appointment never reads the session: in a fresh session whose
confirmation flag is false and whose booking context is incomplete, a
booking with a recognized service still succeeds. -/
theorem booking_succeeds_without_confirmation_flag :
    initialUserData.waiting_for_confirmation = false
    ∧ initialUserData.current_booking.is_complete = false
    ∧ isBooked (bookAppointment demoPrices [] "Jane Doe" "Haircut" "5551234567"
        "March 3, 2025" "10:00 AM" 111 true).1 = true := by
  refine ⟨rfl, rfl, ?_⟩
  decide

/-- C1 (amended): book_appointment succeeds exactly when the lower-cased
service name is in the price list (and the persistence write succeeds); it
consults neither BookingContext.is_complete nor waiting_for_confirmation —
the session is not an input of the booking path at all. -/
theorem bookAppointment_ignores_session_state :
    ∀ (prices : List (String × ℚ)) (store : List Appointment)
      (name service phone date time : String) (ms : Nat),
      isBooked (bookAppointment prices store name service phone date time ms true).1
        = (priceOf prices service).isSome := by
  intro prices store name service phone date time ms
  cases h : priceOf prices service <;> simp [bookAppointment, h, isBooked]

/-- C2 (counterexample): with two bookings already stored at the chosen
(date, slot), the claim says booking is rejected as fully booked and nothing
is persisted; the code confirms the booking and the slot count rises to 3. -/
theorem booking_overbooks_full_slot :
    2 ≤ countAll fullSlotStore exDate "2:00 PM"
    ∧ isBooked (bookAppointment demoPrices fullSlotStore "Jane Doe" "Haircut"
        "5551234567" exDate "2:00 PM" 7 true).1 = true
    ∧ countAll (bookAppointment demoPrices fullSlotStore "Jane Doe" "Haircut"
        "5551234567" exDate "2:00 PM" 7 true).2 exDate "2:00 PM" = 3 := by
  refine ⟨by decide, by decide, by decide⟩

/-- C2 (amended): book_appointment performs no availability re-check before
reserving: whenever the service is recognized it appends the new record and
the slot count grows by one, whatever the current occupancy of the slot (the
capacity check lives only in the separate check_availability tool). -/
theorem bookAppointment_no_capacity_recheck :
    ∀ (prices : List (String × ℚ)) (store : List Appointment)
      (name service phone date time : String) (ms : Nat),
      ((bookAppointment prices store name service phone date time ms true).2
        = match priceOf prices service with
          | some p => store ++ [mkAppointment name service phone date time p ms]
          | none => store)
      ∧ (countAll (bookAppointment prices store name service phone date time ms true).2
            date time
          = countAll store date time
            + (match priceOf prices service with | some _ => 1 | none => 0)) := by
  intro prices store name service phone date time ms
  cases h : priceOf prices service with
  | none => simp [bookAppointment, h]
  | some p =>
      refine ⟨?_, ?_⟩
      · simp [bookAppointment, h]
      · simp [bookAppointment, h, countAll_append, countAll_mk_single]

/-- C3 (counterexample): the claim reads the slot counts as counts of
non-cancelled bookings.  On a store whose 9:00 AM slot holds one cancelled
and one confirmed booking, the 9:00 AM slot has one non-cancelled booking —
below capacity — yet the alternatives offered for the full 2:00 PM slot
exclude it, because the code counts every stored document regardless of its
cancelled flag. -/
theorem alternatives_miss_slot_with_cancelled_booking :
    countNonCancelled mixedStore exDate "2:00 PM" = 2
    ∧ countNonCancelled mixedStore exDate "9:00 AM" = 1
    ∧ check_availability mixedStore exDate "2:00 PM"
        = CheckResult.slotFull ["10:00 AM", "11:00 AM", "1:00 PM", "3:00 PM", "4:00 PM"]
    ∧ "9:00 AM" ∉ altsOf (check_availability mixedStore exDate "2:00 PM") := by
  refine ⟨by decide, by decide, by decide, by decide⟩

/-- C3 (amended): for every fixed slot t whose total stored document count
at (date, t) — cancelled documents included, since the query filters only on
date and time — has reached 2, check_availability returns the fully-booked
outcome with alternatives equal to the fixed slot list filtered to the slots
whose total count is below 2: t is excluded, every other fixed slot below
that total-count capacity is included, and the canonical slot order is
preserved. -/
theorem checkAvailability_full_slot_alternatives :
    ∀ (store : List Appointment) (date t : String),
      t ∈ allSlots → 2 ≤ countAll store date t →
      check_availability store date t
          = CheckResult.slotFull (allSlots.filter fun s => decide (countAll store date s < 2))
      ∧ t ∉ allSlots.filter (fun s => decide (countAll store date s < 2))
      ∧ (∀ s, s ∈ allSlots.filter (fun s => decide (countAll store date s < 2))
            ↔ (s ∈ allSlots ∧ countAll store date s < 2)) := by
  intro store date t ht h2
  have ht' : t ≠ "" := by
    rintro rfl
    revert ht
    decide
  refine ⟨?_, ?_, ?_⟩
  · rw [check_availability, if_pos ht', if_pos ht, if_neg (by omega)]
  · simp only [List.mem_filter, decide_eq_true_eq]
    rintro ⟨-, hlt⟩
    omega
  · intro s
    simp [List.mem_filter]

/-- Witness for the amended C3 at a concrete store: two stored bookings at
(exDate, 2:00 PM) trigger the fully-booked outcome with the filtered
alternatives. -/
theorem checkAvailability_full_slot_alternatives_witness :
    check_availability fullSlotStore exDate "2:00 PM"
      = CheckResult.slotFull
          (allSlots.filter fun s => decide (countAll fullSlotStore exDate s < 2)) :=
  (checkAvailability_full_slot_alternatives fullSlotStore exDate "2:00 PM"
    (by decide) (by decide)).1

/-- C4 (counterexample): the claim says booking validation rejects any phone
input whose digit-stripped form is not exactly 10 digits.  The phone string
abc-123 strips to 3 digits, yet the booking succeeds and the record is
persisted with the phone stored exactly as given: no stripping or length
check exists on the booking path. -/
theorem booking_accepts_malformed_phone :
    (stripNonDigits "abc-123").length = 3
    ∧ isBooked (bookAppointment demoPrices [] "Bob Ray" "Haircut" "abc-123"
        "March 11, 2025" "9:00 AM" 9 true).1 = true
    ∧ ((bookAppointment demoPrices [] "Bob Ray" "Haircut" "abc-123"
        "March 11, 2025" "9:00 AM" 9 true).2.map fun b => b.phone_number)
        = ["abc-123"] := by
  refine ⟨by decide, by decide, by decide⟩

/-- C4 (amended): book_appointment performs no phone validation: success
does not depend on the phone input at all, and whenever the service is
recognized the record is persisted with the phone string stored verbatim (in
particular an already-normalized 10-digit string is stored unchanged). -/
theorem bookAppointment_phone_verbatim :
    ∀ (prices : List (String × ℚ)) (store : List Appointment)
      (name service phone phone₂ date time : String) (ms : Nat),
      isBooked (bookAppointment prices store name service phone date time ms true).1
        = isBooked (bookAppointment prices store name service phone₂ date time ms true).1
      ∧ ((bookAppointment prices store name service phone date time ms true).2
          = match priceOf prices service with
            | some p => store ++ [mkAppointment name service phone date time p ms]
            | none => store)
      ∧ (∀ p, (mkAppointment name service phone date time p ms).phone_number = phone) := by
  intro prices store name service phone phone₂ date time ms
  refine ⟨?_, ?_, fun p => rfl⟩ <;>
    cases h : priceOf prices service <;> simp [bookAppointment, h, isBooked]

/-- C5 (counterexample): March 6, 2025 falls on a Thursday, the designated
closed weekday, yet a booking for that date with a recognized service is
confirmed and the record persisted: the claim says it is rejected with
nothing persisted.  (The Thursday closure appears only in the language-model
prompt text, not in the tool code.) -/
theorem thursday_booking_accepted :
    isThursday 2025 3 6 = true
    ∧ renderDate 3 6 2025 = "March 6, 2025"
    ∧ isBooked (bookAppointment demoPrices [] "Jane Doe" "Haircut" "5551234567"
        (renderDate 3 6 2025) "10:00 AM" 5 true).1 = true
    ∧ ((bookAppointment demoPrices [] "Jane Doe" "Haircut" "5551234567"
        (renderDate 3 6 2025) "10:00 AM" 5 true).2).length = 1 := by
  refine ⟨by decide, by decide, by decide, by decide⟩

/-- C5 (amended): the booking path performs no closed-day check: the date
string is never examined, so the outcome of book_appointment is identical
for any two dates — Thursdays included — and whenever the service is
recognized the record is persisted with the given date. -/
theorem bookAppointment_no_closed_day_check :
    ∀ (prices : List (String × ℚ)) (store : List Appointment)
      (name service phone date date₂ time : String) (ms : Nat),
      isBooked (bookAppointment prices store name service phone date time ms true).1
        = isBooked (bookAppointment prices store name service phone date₂ time ms true).1
      ∧ ((bookAppointment prices store name service phone date time ms true).2
          = match priceOf prices service with
            | some p => store ++ [mkAppointment name service phone date time p ms]
            | none => store) := by
  intro prices store name service phone date date₂ time ms
  cases h : priceOf prices service with
  | none => simp [bookAppointment, h]
  | some p => simp [bookAppointment, h, isBooked]

/-- C6 (code_bug): request_help calls the async search_faq and
search_knowledge without await (agent.py lines 433 and 444), so for every
FAQ cache and every query the tool returns the unawaited search_knowledge
coroutine object: the lexical tier can never return an answer (the get call
on the truthy coroutine raises AttributeError, which the inner except
swallows), the semantic search body never executes, and the
create_help_request branch is unreachable.  The second conjunct shows the
lexical tier itself (as it would run when awaited) does match the scenario
query, so the tiering the claim describes is bypassed, not merely unused. -/
theorem request_help_never_creates_help_request :
    (∀ (cache : List FaqEntry) (q : String),
      request_help cache q = HelpOutcome.rawKb (PyVal.pyCoroutine "search_knowledge"))
    ∧ searchFaq demoFaq "Do you accept crypto?"
        = some "Yes, we accept all major credit cards." := by
  refine ⟨fun cache q => rfl, by decide⟩

/-- C7: search_knowledge returns the top hit's answer only when its score
is at least the threshold; with no hits, or a best score below the
threshold, it returns nothing. -/
theorem search_knowledge_threshold_gate :
    ∀ (hits : List Hit) (threshold : ℚ),
      search_knowledge [] threshold = none
      ∧ (∀ h rest, hits = h :: rest → h.score < threshold →
          search_knowledge hits threshold = none)
      ∧ (∀ a, search_knowledge hits threshold = some a →
          ∃ h rest, hits = h :: rest ∧ threshold ≤ h.score
            ∧ ∃ entries, h.payload = some entries ∧ alistGet entries "answer" = some a) := by
  intro hits threshold
  refine ⟨rfl, ?_, ?_⟩
  · rintro h rest rfl hlt
    simp [search_knowledge, if_pos hlt]
  · intro a ha
    cases hits with
    | nil => simp [search_knowledge] at ha
    | cons h rest =>
        by_cases hlt : h.score < threshold
        · simp [search_knowledge, hlt] at ha
        · refine ⟨h, rest, rfl, not_lt.mp hlt, ?_⟩
          cases hp : h.payload with
          | none => simp [search_knowledge, hlt, hp] at ha
          | some entries =>
              refine ⟨entries, rfl, ?_⟩
              by_cases he : entries.isEmpty
              · simp [search_knowledge, hlt, hp, he] at ha
              · simpa [search_knowledge, hlt, hp, he] using ha

/-- Witness for C7 at concrete inputs: a best hit scoring one half, below
the default threshold of four fifths, is reported as no match. -/
theorem search_knowledge_threshold_gate_witness :
    search_knowledge [{ score := 1/2, payload := some [("answer", "We open at 9 AM.")] }]
        defaultThreshold = none :=
  (search_knowledge_threshold_gate
      [{ score := 1/2, payload := some [("answer", "We open at 9 AM.")] }]
      defaultThreshold).2.1 _ [] rfl (by norm_num [defaultThreshold])

/-- C8: over every store reachable through create and resolve steps with a
non-decreasing clock, a stored document's answer and response time are set
exactly when its status is resolved, and a resolved document's response time
is the resolution time minus created_at, hence non-negative; create writes a
pending document with both fields null; resolve on an unknown id fails with
not-found and writes nothing, and on a known id performs the unique
transition to resolved with a non-null answer and the computed response
time. -/
theorem helpRequest_resolution_invariant :
    (∀ (t : Int) (s : HelpStore), Reach t s → ∀ id d, getDoc s id = some d →
        ((d.answer.isSome ∧ d.response_time_seconds.isSome)
            ↔ d.status = HelpStatus.resolved)
        ∧ (d.status = HelpStatus.resolved →
            ∃ rt, d.response_time_seconds = some rt ∧ 0 ≤ rt))
    ∧ (∀ (s : HelpStore) (id q : String) (room : Option String) (now : Int)
          (url : Option String) (net : NetBehavior),
        getDoc (createHelpRequest s id q room now url net).1 id
            = some (pendingDoc q room now)
        ∧ (pendingDoc q room now).status = HelpStatus.pending
        ∧ (pendingDoc q room now).answer = none
        ∧ (pendingDoc q room now).response_time_seconds = none)
    ∧ (∀ (s : HelpStore) (id answer : String) (notes : Option String) (now : Int),
        getDoc s id = none →
        resolveHelpRequest s id answer notes now = Except.error ResolveErr.notFound)
    ∧ (∀ (s : HelpStore) (id answer : String) (notes : Option String) (now : Int)
          (d : HelpDoc), getDoc s id = some d →
        resolveHelpRequest s id answer notes now
          = Except.ok (setDoc s id
              { d with
                status := HelpStatus.resolved
                answer := some answer
                resolution_notes := notes
                updated_at := now
                response_time_seconds := some (now - d.created_at)
                resolved_by := some "supervisor"
                resolved_at := some now },
              now - d.created_at)) := by
  refine ⟨?_, ?_, ?_, ?_⟩
  · intro t s hr id d hd
    exact ⟨(reach_docInv hr id d hd).2.1, (reach_docInv hr id d hd).2.2⟩
  · intro s id q room now url net
    exact ⟨getDoc_setDoc_self _ _ _, rfl, rfl, rfl⟩
  · intro s id answer notes now h
    rw [resolveHelpRequest, h]
  · intro s id answer notes now d h
    rw [resolveHelpRequest, h]

/-- Witness for C8 at a concrete trace: a store holding one freshly created
request satisfies the invariant at its document, and resolving an id absent
from the empty store fails with not-found. -/
theorem helpRequest_resolution_invariant_witness :
    (((pendingDoc "What are your hours?" none 3).answer.isSome
        ∧ (pendingDoc "What are your hours?" none 3).response_time_seconds.isSome)
      ↔ (pendingDoc "What are your hours?" none 3).status = HelpStatus.resolved)
    ∧ resolveHelpRequest [] "missing-id" "answer text" none 9
        = Except.error ResolveErr.notFound := by
  constructor
  · exact (helpRequest_resolution_invariant.1 3 _
      (Reach.createStep 3 "r1" "What are your hours?" none none
        (NetBehavior.respond 200) (Reach.init 3) le_rfl)
      "r1" _
      (helpRequest_resolution_invariant.2.1 [] "r1" "What are your hours?" none 3 none
        (NetBehavior.respond 200)).1).1
  · exact helpRequest_resolution_invariant.2.2.1 [] "missing-id" "answer text" none 9 rfl

/-- C9: create_help_request writes the pending document and returns the
generated id whatever the notification channel does: the returned store is
identical across network behaviours (the record is never rolled back), and
the notification step maps a raised exception or timeout to a logged error
and a non-200 status to a logged warning, never propagating either. -/
theorem createHelpRequest_commits_before_notifying :
    ∀ (s : HelpStore) (id q : String) (room : Option String) (now : Int)
      (url : Option String) (net : NetBehavior),
      (createHelpRequest s id q room now url net).2.1 = id
      ∧ getDoc (createHelpRequest s id q room now url net).1 id
          = some (pendingDoc q room now)
      ∧ (∀ net₂, (createHelpRequest s id q room now url net₂).1
            = (createHelpRequest s id q room now url net).1)
      ∧ notifySupervisor (some "https://hooks.example") (NetBehavior.raiseExn "timeout")
          = NotifyLog.errorCaught "timeout"
      ∧ notifySupervisor (some "https://hooks.example") (NetBehavior.respond 503)
          = NotifyLog.warnedStatus 503 := by
  intro s id q room now url net
  exact ⟨rfl, getDoc_setDoc_self _ _ _, fun net₂ => rfl, rfl, rfl⟩

/-- C10: reset_booking installs a fresh empty booking context, clears the
confirmation flag, empties the validation errors and zeroes the retry
counter, while previous_queries, availability_checks, conversation_state,
last_tool_called and last_tool_result are left unchanged. -/
theorem reset_booking_frame :
    ∀ u : SalonUserData,
      u.reset_booking.current_booking = emptyBookingContext
      ∧ u.reset_booking.waiting_for_confirmation = false
      ∧ u.reset_booking.validation_errors = []
      ∧ u.reset_booking.retry_count = 0
      ∧ u.reset_booking.previous_queries = u.previous_queries
      ∧ u.reset_booking.availability_checks = u.availability_checks
      ∧ u.reset_booking.conversation_state = u.conversation_state
      ∧ u.reset_booking.last_tool_called = u.last_tool_called
      ∧ u.reset_booking.last_tool_result = u.last_tool_result :=
  fun _ => ⟨rfl, rfl, rfl, rfl, rfl, rfl, rfl, rfl, rfl⟩
